import Mathlib

/-!
Shallow embedding of the Windows platform utility layer
(src/platform_impl/windows/util.rs) of the tao windowing library,
with theorems checking the natural-language specification against it.

Native Win32 calls are modelled by explicit environment records whose
fields give the outcome of each native call; mutators additionally
return a trace of the native side effects they issue, so that claims
about which calls happen (and how often) become statements about the
trace.  Machine integers: u32 and DWORD values are Nat, signed LONG
rectangle edges are Int, and the u32 to i32 casts of the source are
made explicit with modular arithmetic.
-/

namespace Tao

/-- A Win32 RECT: four signed integer edges. -/
structure RECT where
  left : Int
  top : Int
  right : Int
  bottom : Int
deriving Repr, DecidableEq

/-- A Win32 POINT. -/
structure POINT where
  x : Int
  y : Int
deriving Repr, DecidableEq

/-- Interpretation of the Rust cast `u32 as i32` (two-complement wrap). -/
def toInt32 (n : Nat) : Int :=
  let m : Nat := n % 2 ^ 32
  if m < 2 ^ 31 then (m : Int) else (m : Int) - 2 ^ 32

/-- Interpretation of the Rust cast `i32 as u32` (modular wrap). -/
def toUInt32 (i : Int) : Nat :=
  (i % 2 ^ 32).toNat

/-- has_flag from util.rs: `bitset & flag == flag`, here on Nat bitsets. -/
def has_flag (bitset flag : Nat) : Bool :=
  bitset &&& flag == flag

/-! ### Cursor visibility latch (set_cursor_hidden, util.rs lines 164-170)

The static HIDDEN flag is the state (false at process start).  One call
swaps in the new value and issues the native ShowCursor call exactly
when the swapped-out value xor the new value is true. -/

/-- One call of set_cursor_hidden: given the previous value of the
HIDDEN latch and the argument, returns the new latch value and whether
a native ShowCursor call was issued. -/
def set_cursor_hidden (st hidden : Bool) : Bool × Bool :=
  let changed := xor st hidden
  (hidden, changed)

/-- Number of native ShowCursor invocations made by a sequence of
set_cursor_hidden calls starting from latch value st. -/
def runCursorCalls (st : Bool) : List Bool → Nat
  | [] => 0
  | h :: t =>
    let r := set_cursor_hidden st h
    (if r.2 then 1 else 0) + runCursorCalls r.1 t

/-- Specification-side count: positions of the sequence whose argument
differs from the latch value before that position. -/
def countChanges (prev : Bool) : List Bool → Nat
  | [] => 0
  | h :: t => (if h ≠ prev then 1 else 0) + countChanges h t

/-! ### Window placement (is_maximized, set_maximized, util.rs lines 213-234) -/

def SW_MAXIMIZE : Nat := 3
def SW_RESTORE : Nat := 9

/-- Observable state of one window: visibility (IsWindowVisible) and the
showCmd field that GetWindowPlacement reports. -/
structure WindowSt where
  visible : Bool
  showCmd : Nat
deriving Repr, DecidableEq

/-- is_maximized from util.rs: placement.showCmd == SW_MAXIMIZE. -/
def is_maximized (w : WindowSt) : Bool :=
  w.showCmd == SW_MAXIMIZE

/-- set_maximized from util.rs: when the window is visible, issue
ShowWindow with SW_MAXIMIZE or SW_RESTORE (modelled as setting showCmd
and recording the issued show command); otherwise do nothing.  The
second component is the list of native show commands issued. -/
def set_maximized (w : WindowSt) (maximized : Bool) : WindowSt × List Nat :=
  if w.visible then
    let cmd := if maximized then SW_MAXIMIZE else SW_RESTORE
    ({ w with showCmd := cmd }, [cmd])
  else
    (w, [])

/-! ### Desktop metrics (get_desktop_rect, util.rs lines 192-203) -/

/-- The four virtual-screen system metrics read by get_desktop_rect.
The two origin metrics are signed; the two extent metrics are pixel
counts of the virtual screen, which GetSystemMetrics reports as a
nonnegative number and as zero when the metric is absent, so they are
modelled as Nat. -/
structure Metrics where
  xVirtualScreen : Int
  yVirtualScreen : Int
  cxVirtualScreen : Nat
  cyVirtualScreen : Nat
deriving Repr, DecidableEq

/-- get_desktop_rect from util.rs: left and top are the virtual-screen
origin metrics, right and bottom add the extent metrics.  Total: there
is no error path. -/
def get_desktop_rect (m : Metrics) : RECT :=
  { left := m.xVirtualScreen
    top := m.yVirtualScreen
    right := m.xVirtualScreen + m.cxVirtualScreen
    bottom := m.yVirtualScreen + m.cyVirtualScreen }

/-! ### Geometry adjuster (util.rs lines 89-162)

The native side of the adjuster is an environment: the window styles
that GetWindowLongW reads, the GetMenu null test, the two optional
function pointers resolved by the capability resolver, and the outcome
of each of the two native adjustment calls (none models a zero BOOL
return from the native call, which status_map turns into None). -/

/-- Record of which native adjustment call
adjust_window_rect_with_styles made, and with which arguments. -/
inductive AdjustCall where
  | forDpi (style : Nat) (bMenu : Bool) (styleEx : Nat) (dpi : Nat)
  | legacy (style : Nat) (bMenu : Bool) (styleEx : Nat)
deriving Repr, DecidableEq

/-- True on the per-window-DPI-aware call record. -/
def AdjustCall.isDpiAware : AdjustCall → Bool
  | .forDpi _ _ _ _ => true
  | .legacy _ _ _ => false

/-- Native environment of the geometry adjuster.  Window handles are
Nat.  getDpiForWindow models the GET_DPI_FOR_WINDOW lazy static (none
when the symbol is absent) together with the native GetDpiForWindow
result; adjustWindowRectExForDpi likewise bundles the
ADJUST_WINDOW_RECT_EX_FOR_DPI pointer with the native call outcome,
taking the input rect, style, bMenu, styleEx and dpi.
adjustWindowRectEx is the legacy AdjustWindowRectEx outcome. -/
structure WinEnv where
  styleOf : Nat → Nat
  styleExOf : Nat → Nat
  menuPresent : Nat → Bool
  getDpiForWindow : Option (Nat → Nat)
  adjustWindowRectExForDpi : Option (RECT → Nat → Bool → Nat → Nat → Option RECT)
  adjustWindowRectEx : RECT → Nat → Bool → Nat → Option RECT

/-- adjust_window_rect_with_styles from util.rs: query GetMenu, then if
both DPI function pointers are present call GetDpiForWindow and the
DPI-aware adjustment, else the legacy AdjustWindowRectEx.  The second
component records which native adjustment call was made. -/
def adjust_window_rect_with_styles (env : WinEnv) (hwnd style styleEx : Nat)
    (rect : RECT) : Option RECT × AdjustCall :=
  let bMenu := env.menuPresent hwnd
  match env.getDpiForWindow, env.adjustWindowRectExForDpi with
  | some getDpi, some adjForDpi =>
    let dpi := getDpi hwnd
    (adjForDpi rect style bMenu styleEx dpi, .forDpi style bMenu styleEx dpi)
  | _, _ =>
    (env.adjustWindowRectEx rect style bMenu styleEx, .legacy style bMenu styleEx)

/-- adjust_window_rect from util.rs: read GWL_STYLE and GWL_EXSTYLE for
the handle and delegate. -/
def adjust_window_rect (env : WinEnv) (hwnd : Nat) (rect : RECT) : Option RECT :=
  (adjust_window_rect_with_styles env hwnd (env.styleOf hwnd) (env.styleExOf hwnd) rect).1

/-- The desired client rectangle built by adjust_size and
set_inner_size_physical: origin (0,0), extents the u32 width and height
cast to LONG. -/
def desiredRect (width height : Nat) : RECT :=
  { left := 0, right := toInt32 width, top := 0, bottom := toInt32 height }

/-- adjust_size from util.rs: adjust the desired rectangle, fall back
to it unchanged when adjustment fails, and return the spans cast back
to u32. -/
def adjust_size (env : WinEnv) (hwnd : Nat) (width height : Nat) : Nat × Nat :=
  let rect := desiredRect width height
  let rect := (adjust_window_rect env hwnd rect).getD rect
  (toUInt32 (rect.right - rect.left), toUInt32 (rect.bottom - rect.top))

/-! ### set_inner_size_physical (util.rs lines 101-131) -/

def SWP_NOMOVE : Nat := 0x0002
def SWP_NOZORDER : Nat := 0x0004
def SWP_NOACTIVATE : Nat := 0x0010
def SWP_NOREPOSITION : Nat := 0x0200
def SWP_ASYNCWINDOWPOS : Nat := 0x4000

/-- Native side effects issued by set_inner_size_physical. -/
inductive WinEffect where
  | setWindowPos (x y cx cy : Int) (flags : Nat)
  | invalidateRgn
deriving Repr, DecidableEq

/-- set_inner_size_physical from util.rs: adjust the desired rectangle;
a failed adjustment hits the expect and panics (modelled as
Except.error with the panic message); on success issue SetWindowPos
with the absolute spans and the five SWP flags, then InvalidateRgn. -/
def set_inner_size_physical (env : WinEnv) (window x y : Nat) :
    Except String (List WinEffect) :=
  match adjust_window_rect env window
      { top := 0, left := 0, bottom := toInt32 y, right := toInt32 x } with
  | none => .error "adjust_window_rect failed"
  | some rect =>
    let outer_x : Int := (rect.right - rect.left).natAbs
    let outer_y : Int := (rect.top - rect.bottom).natAbs
    .ok [.setWindowPos 0 0 outer_x outer_y
          (SWP_ASYNCWINDOWPOS ||| SWP_NOZORDER ||| SWP_NOREPOSITION |||
            SWP_NOMOVE ||| SWP_NOACTIVATE),
         .invalidateRgn]

/-! ### get_client_rect (util.rs lines 73-87) -/

/-- Native environment of get_client_rect: the ClientToScreen result
for the client origin and the untranslated GetClientRect result, none
modelling a zero BOOL return (turned into an OS error by win_to_err,
modelled as Except.error). -/
structure ClientEnv where
  clientToScreen : Nat → Option POINT
  getClientRectNative : Nat → Option RECT

/-- get_client_rect from util.rs: translate the client origin to screen
coordinates, query the native client rectangle, and offset all four
edges by the translation. -/
def get_client_rect (env : ClientEnv) (hwnd : Nat) : Except Unit RECT :=
  match env.clientToScreen hwnd with
  | none => .error ()
  | some top_left =>
    match env.getClientRectNative hwnd with
    | none => .error ()
    | some rect =>
      .ok { left := rect.left + top_left.x
            top := rect.top + top_left.y
            right := rect.right + top_left.x
            bottom := rect.bottom + top_left.y }

/-! ### Icon decoder (get_hicon_from_buffer, util.rs lines 236-275) -/

/-- The two native steps the icon decoder can attempt. -/
inductive IconStep where
  | lookup
  | create
deriving Repr, DecidableEq

/-- Native environment of the icon decoder.
lookupIconIdFromDirectoryEx takes the buffer bytes and the requested
width and height and returns the directory offset as a signed value,
0 meaning no usable entry (also the outcome for an empty or malformed
buffer).  createIconFromResourceEx takes the buffer, the offset at
which the resource bytes start and the buffer length, and returns the
created icon handle, none modelling a null HICON. -/
structure IconEnv where
  lookupIconIdFromDirectoryEx : List Nat → Int → Int → Int
  createIconFromResourceEx : List Nat → Int → Nat → Option Nat

/-- get_hicon_from_buffer from util.rs: look the directory entry up; on
offset 0 return None at once, otherwise create the icon resource from
the bytes at that offset and return None exactly when the created
handle is null.  The second component is the trace of native steps
attempted. -/
def get_hicon_from_buffer (env : IconEnv) (buffer : List Nat)
    (width height : Int) : Option Nat × List IconStep :=
  let offset := env.lookupIconIdFromDirectoryEx buffer width height
  if offset = 0 then
    (none, [.lookup])
  else
    match env.createIconFromResourceEx buffer offset buffer.length with
    | none => (none, [.lookup, .create])
    | some hicon => (some hicon, [.lookup, .create])

/-! ### Cursor shape mapper (CursorIcon::to_windows_cursor, util.rs
lines 277-302)

Modelled from the spec: the CursorIcon enumeration itself lives in the
window module, which is not part of the sources here; its variants are
taken from the closed cursor-shape enumeration the spec describes
(arrow, hand, text, resize directions, wait, progress, help,
not-allowed, etc.), that is, the variants named by the match arms of
to_windows_cursor plus the shapes the spec groups under etc.
(context-menu, cell, alias, copy, zoom in and out), which the match
covers with its catch-all arm. -/
inductive CursorIcon where
  | Default
  | Crosshair
  | Hand
  | Arrow
  | Move
  | Text
  | Wait
  | Help
  | Progress
  | NotAllowed
  | ContextMenu
  | Cell
  | VerticalText
  | Alias
  | Copy
  | NoDrop
  | Grab
  | Grabbing
  | AllScroll
  | ZoomIn
  | ZoomOut
  | EResize
  | NResize
  | NeResize
  | NwResize
  | SResize
  | SeResize
  | SwResize
  | WResize
  | EwResize
  | NsResize
  | NeswResize
  | NwseResize
  | ColResize
  | RowResize
deriving Repr, DecidableEq

/-- Native stock-cursor identifiers (winuser IDC values, the integer
resource ordinals behind the MAKEINTRESOURCE pointers). -/
def IDC_ARROW : Nat := 32512
def IDC_IBEAM : Nat := 32513
def IDC_WAIT : Nat := 32514
def IDC_CROSS : Nat := 32515
def IDC_SIZENWSE : Nat := 32642
def IDC_SIZENESW : Nat := 32643
def IDC_SIZEWE : Nat := 32644
def IDC_SIZENS : Nat := 32645
def IDC_SIZEALL : Nat := 32646
def IDC_NO : Nat := 32648
def IDC_HAND : Nat := 32649
def IDC_APPSTARTING : Nat := 32650
def IDC_HELP : Nat := 32651

/-- to_windows_cursor from util.rs: the match arms as in the source,
with the final catch-all arm mapping the missing cases to IDC_ARROW.
A null pointer is the identifier 0, which no arm produces. -/
def CursorIcon.to_windows_cursor : CursorIcon → Nat
  | .Arrow | .Default => IDC_ARROW
  | .Hand => IDC_HAND
  | .Crosshair => IDC_CROSS
  | .Text | .VerticalText => IDC_IBEAM
  | .NotAllowed | .NoDrop => IDC_NO
  | .Grab | .Grabbing | .Move | .AllScroll => IDC_SIZEALL
  | .EResize | .WResize | .EwResize | .ColResize => IDC_SIZEWE
  | .NResize | .SResize | .NsResize | .RowResize => IDC_SIZENS
  | .NeResize | .SwResize | .NeswResize => IDC_SIZENESW
  | .NwResize | .SeResize | .NwseResize => IDC_SIZENWSE
  | .Wait => IDC_WAIT
  | .Progress => IDC_APPSTARTING
  | .Help => IDC_HELP
  | _ => IDC_ARROW

/-! ### Concrete environments used to instantiate the theorems -/

/-- Adjuster environment with both DPI entry points available, no menu
on any window, DPI 96, and every native adjustment call succeeding and
returning its input rectangle unchanged. -/
def envDpiNoMenu : WinEnv :=
  { styleOf := fun _ => 0
    styleExOf := fun _ => 0
    menuPresent := fun _ => false
    getDpiForWindow := some fun _ => 96
    adjustWindowRectExForDpi := some fun r _ _ _ _ => some r
    adjustWindowRectEx := fun r _ _ _ => some r }

/-- Adjuster environment with both DPI entry points absent, a menu on
every window, and a succeeding legacy adjustment. -/
def envLegacyOnly : WinEnv :=
  { styleOf := fun _ => 0
    styleExOf := fun _ => 0
    menuPresent := fun _ => true
    getDpiForWindow := none
    adjustWindowRectExForDpi := none
    adjustWindowRectEx := fun r _ _ _ => some r }

/-- Adjuster environment in which every native adjustment call fails. -/
def envAdjustFails : WinEnv :=
  { styleOf := fun _ => 0
    styleExOf := fun _ => 0
    menuPresent := fun _ => false
    getDpiForWindow := none
    adjustWindowRectExForDpi := none
    adjustWindowRectEx := fun _ _ _ _ => none }

/-- Icon environment in which the directory lookup finds no entry. -/
def envIconFail : IconEnv :=
  { lookupIconIdFromDirectoryEx := fun _ _ _ => 0
    createIconFromResourceEx := fun _ _ _ => none }

/-- Client-rect environment with client origin at screen (10, 20) and a
640 by 480 native client rectangle. -/
def envClientOk : ClientEnv :=
  { clientToScreen := fun _ => some ⟨10, 20⟩
    getClientRectNative := fun _ => some ⟨0, 0, 640, 480⟩ }

end Tao

namespace Tao

/-! ### Theorems -/

/-- Helper for C2: the invocation count agrees with the change count
from any latch value. -/
lemma runCursorCalls_eq_countChanges (st : Bool) (seq : List Bool) :
    runCursorCalls st seq = countChanges st seq := by
  induction seq generalizing st with
  | nil => rfl
  | cons h t ih =>
    simp only [runCursorCalls, countChanges, set_cursor_hidden, ih]
    cases h <;> cases st <;> simp [xor]

/-- C2: for every finite sequence of set_cursor_hidden calls starting
from the initial process state (latch false), the number of native
ShowCursor invocations equals the number of positions whose argument
differs from the previous latch value; in particular the sequence
hide, hide, hide, show issues exactly 2 native calls. -/
theorem cursor_latch_edge_triggered (seq : List Bool) :
    runCursorCalls false seq = countChanges false seq ∧
    runCursorCalls false [true, true, true, false] = 2 := by
  exact ⟨runCursorCalls_eq_countChanges false seq, rfl⟩

/-- C4: on a window that is not visible, set_maximized issues no native
show command and the maximized state reported by is_maximized is
unchanged. -/
theorem set_maximized_noop_on_hidden (w : WindowSt) (b : Bool)
    (h : w.visible = false) :
    (set_maximized w b).2 = [] ∧
    is_maximized (set_maximized w b).1 = is_maximized w := by
  simp [set_maximized, h]

/-- Witness for C4 at a concrete hidden window. -/
theorem set_maximized_noop_on_hidden_witness :
    (set_maximized ⟨false, SW_MAXIMIZE⟩ true).2 = [] ∧
    is_maximized (set_maximized ⟨false, SW_MAXIMIZE⟩ true).1 =
      is_maximized ⟨false, SW_MAXIMIZE⟩ :=
  set_maximized_noop_on_hidden ⟨false, SW_MAXIMIZE⟩ true rfl

/-- C5: get_desktop_rect always succeeds (it is a total function), its
edges are built from the four virtual-screen metrics as stated, and the
resulting rectangle always satisfies right ≥ left and bottom ≥ top. -/
theorem get_desktop_rect_wellformed (m : Metrics) :
    (get_desktop_rect m).left = m.xVirtualScreen ∧
    (get_desktop_rect m).top = m.yVirtualScreen ∧
    (get_desktop_rect m).right = m.xVirtualScreen + m.cxVirtualScreen ∧
    (get_desktop_rect m).bottom = m.yVirtualScreen + m.cyVirtualScreen ∧
    (get_desktop_rect m).left ≤ (get_desktop_rect m).right ∧
    (get_desktop_rect m).top ≤ (get_desktop_rect m).bottom := by
  refine ⟨rfl, rfl, rfl, rfl, ?_, ?_⟩ <;> simp [get_desktop_rect]

/-- C1 counterexample: in an environment where the per-window-DPI-aware
capability is available but no menu is present on the window, the code
still invokes the DPI-aware adjustment, refuting the claim that the
DPI-aware path is taken exactly when the capability is available and a
menu is present. -/
theorem adjust_dpi_branch_cex :
    envDpiNoMenu.getDpiForWindow.isSome = true ∧
    envDpiNoMenu.adjustWindowRectExForDpi.isSome = true ∧
    envDpiNoMenu.menuPresent 0 = false ∧
    (adjust_window_rect_with_styles envDpiNoMenu 0 0 0 ⟨0, 0, 0, 0⟩).2.isDpiAware = true ∧
    ¬ ((adjust_window_rect_with_styles envDpiNoMenu 0 0 0 ⟨0, 0, 0, 0⟩).2.isDpiAware =
        (envDpiNoMenu.getDpiForWindow.isSome &&
          (envDpiNoMenu.adjustWindowRectExForDpi.isSome && envDpiNoMenu.menuPresent 0))) :=
  ⟨rfl, rfl, rfl, rfl, by decide⟩

/-- C1 amended: adjust_window_rect_with_styles invokes the
per-window-DPI-aware adjustment (querying the DPI of the window first)
exactly when both DPI entry points are available, regardless of menu
presence; menu presence is only passed as the has-menu flag to the
chosen call; otherwise it invokes the legacy AdjustWindowRectEx. -/
theorem adjust_dpi_branch (env : WinEnv) (hwnd style styleEx : Nat) (rect : RECT) :
    ((adjust_window_rect_with_styles env hwnd style styleEx rect).2.isDpiAware =
      (env.getDpiForWindow.isSome && env.adjustWindowRectExForDpi.isSome)) ∧
    (∀ getDpi adjForDpi,
      env.getDpiForWindow = some getDpi →
      env.adjustWindowRectExForDpi = some adjForDpi →
      adjust_window_rect_with_styles env hwnd style styleEx rect =
        (adjForDpi rect style (env.menuPresent hwnd) styleEx (getDpi hwnd),
          .forDpi style (env.menuPresent hwnd) styleEx (getDpi hwnd))) ∧
    ((env.getDpiForWindow.isSome && env.adjustWindowRectExForDpi.isSome) = false →
      adjust_window_rect_with_styles env hwnd style styleEx rect =
        (env.adjustWindowRectEx rect style (env.menuPresent hwnd) styleEx,
          .legacy style (env.menuPresent hwnd) styleEx)) := by
  cases hd : env.getDpiForWindow <;> cases ha : env.adjustWindowRectExForDpi <;>
    simp_all [adjust_window_rect_with_styles, AdjustCall.isDpiAware]

/-- Witness for C1 at concrete environments: with both entry points
present and no menu the DPI-aware call is made, with both absent and a
menu present the legacy call is made. -/
theorem adjust_dpi_branch_witness :
    (adjust_window_rect_with_styles envDpiNoMenu 0 0 0 ⟨0, 0, 0, 0⟩).2 =
      AdjustCall.forDpi 0 false 0 96 ∧
    (adjust_window_rect_with_styles envLegacyOnly 0 0 0 ⟨0, 0, 0, 0⟩).2 =
      AdjustCall.legacy 0 true 0 := by
  have h1 := (adjust_dpi_branch envDpiNoMenu 0 0 0 ⟨0, 0, 0, 0⟩).2.1
    (fun _ => 96) (fun r _ _ _ _ => some r) rfl rfl
  have h2 := (adjust_dpi_branch envLegacyOnly 0 0 0 ⟨0, 0, 0, 0⟩).2.2 rfl
  exact ⟨by rw [h1]; rfl, by rw [h2]; rfl⟩

/-- Helper for C3: the u32 to i32 cast followed by the i32 to u32 cast
is the identity on values below 2 to the 32. -/
lemma toUInt32_toInt32 (n : Nat) (h : n < 2 ^ 32) : toUInt32 (toInt32 n) = n := by
  unfold toInt32 toUInt32
  simp only [Nat.mod_eq_of_lt h]
  split <;> omega

/-- C3: when the rectangle adjustment fails, adjust_size returns the
requested client size unchanged (no panic: the fallback is total). -/
theorem adjust_size_fallback (env : WinEnv) (hwnd w h : Nat)
    (hw : w < 2 ^ 32) (hh : h < 2 ^ 32)
    (hfail : adjust_window_rect env hwnd (desiredRect w h) = none) :
    adjust_size env hwnd w h = (w, h) := by
  have hw2 := toUInt32_toInt32 w hw
  have hh2 := toUInt32_toInt32 h hh
  simp only [desiredRect] at hfail
  simp [adjust_size, desiredRect, hfail, hw2, hh2]

/-- Witness for C3: in an environment whose native adjustment always
fails, a request of 800 by 600 comes back unchanged. -/
theorem adjust_size_fallback_witness :
    800 < 2 ^ 32 ∧ 600 < 2 ^ 32 ∧
    adjust_window_rect envAdjustFails 0 (desiredRect 800 600) = none ∧
    adjust_size envAdjustFails 0 800 600 = (800, 600) :=
  ⟨by decide, by decide, rfl,
    adjust_size_fallback envAdjustFails 0 800 600 (by decide) (by decide) rfl⟩

/-- C9: has_flag is true exactly when every bit set in the flag is also
set in the bitset; has_flag x 0 and has_flag x x hold for every x. -/
theorem has_flag_spec (x f : Nat) :
    (has_flag x f = true ↔ ∀ i, f.testBit i = true → x.testBit i = true) ∧
    has_flag x 0 = true ∧ has_flag x x = true := by
  refine ⟨?_, by simp [has_flag], by simp [has_flag]⟩
  simp only [has_flag, beq_iff_eq]
  constructor
  · intro h i hf
    have := congrArg (fun n => Nat.testBit n i) h
    simpa [Nat.testBit_land, hf] using this
  · intro h
    apply Nat.eq_of_testBit_eq
    intro i
    by_cases hf : f.testBit i
    · simp [Nat.testBit_land, hf, h i hf]
    · simp [Nat.testBit_land, hf]

/-- Witness for C9 at concrete bitsets: 3 is contained in 11, bit 0 of
11 is set, and the two special cases hold at 5. -/
theorem has_flag_spec_witness :
    has_flag 11 3 = true ∧ Nat.testBit 11 0 = true ∧
    has_flag 5 0 = true ∧ has_flag 5 5 = true :=
  ⟨by decide, (has_flag_spec 11 3).1.mp (by decide) 0 (by decide),
    (has_flag_spec 5 0).2.1, (has_flag_spec 5 5).2.2⟩

/-- C8: set_inner_size_physical panics (modelled as the error outcome
carrying the panic message) exactly when the rectangle adjustment
returns no result; when adjustment succeeds it issues one SetWindowPos
carrying the absolute spans of the adjusted rectangle with flags that
include SWP_NOMOVE (position kept fixed) and SWP_ASYNCWINDOWPOS
(asynchronous), followed by InvalidateRgn on the window. -/
theorem set_inner_size_physical_spec (env : WinEnv) (window x y : Nat) :
    (set_inner_size_physical env window x y = .error "adjust_window_rect failed" ↔
      adjust_window_rect env window
        { left := 0, top := 0, right := toInt32 x, bottom := toInt32 y } = none) ∧
    (∀ rect,
      adjust_window_rect env window
        { left := 0, top := 0, right := toInt32 x, bottom := toInt32 y } = some rect →
      set_inner_size_physical env window x y =
        .ok [.setWindowPos 0 0 (rect.right - rect.left).natAbs (rect.top - rect.bottom).natAbs
              (SWP_ASYNCWINDOWPOS ||| SWP_NOZORDER ||| SWP_NOREPOSITION |||
                SWP_NOMOVE ||| SWP_NOACTIVATE),
             .invalidateRgn] ∧
      has_flag (SWP_ASYNCWINDOWPOS ||| SWP_NOZORDER ||| SWP_NOREPOSITION |||
        SWP_NOMOVE ||| SWP_NOACTIVATE) SWP_NOMOVE = true ∧
      has_flag (SWP_ASYNCWINDOWPOS ||| SWP_NOZORDER ||| SWP_NOREPOSITION |||
        SWP_NOMOVE ||| SWP_NOACTIVATE) SWP_ASYNCWINDOWPOS = true) := by
  constructor
  · unfold set_inner_size_physical
    cases h : adjust_window_rect env window
        { left := 0, top := 0, right := toInt32 x, bottom := toInt32 y } with
    | none => simp
    | some r => simp
  · intro rect h
    refine ⟨?_, by decide, by decide⟩
    unfold set_inner_size_physical
    rw [h]

/-- Witness for C8: the failing environment produces the panic message,
and a succeeding environment produces the SetWindowPos and
InvalidateRgn effects with the expected flags. -/
theorem set_inner_size_physical_spec_witness :
    set_inner_size_physical envAdjustFails 0 100 50 = .error "adjust_window_rect failed" ∧
    set_inner_size_physical envDpiNoMenu 0 100 50 =
      .ok [.setWindowPos 0 0 100 50
            (SWP_ASYNCWINDOWPOS ||| SWP_NOZORDER ||| SWP_NOREPOSITION |||
              SWP_NOMOVE ||| SWP_NOACTIVATE),
           .invalidateRgn] := by
  have h1 := (set_inner_size_physical_spec envAdjustFails 0 100 50).1.mpr rfl
  have h2 := (set_inner_size_physical_spec envDpiNoMenu 0 100 50).2
    { left := 0, top := 0, right := toInt32 100, bottom := toInt32 50 } rfl
  refine ⟨h1, ?_⟩
  rw [h2.1]
  rfl

/-- C6: whenever the directory lookup yields offset 0 or the icon
creation yields a null handle, get_hicon_from_buffer returns none (and,
being a total function, never panics); in every call each of the two
native steps is attempted at most once. -/
theorem get_hicon_absent_on_failure (env : IconEnv) (buffer : List Nat) (w h : Int) :
    (env.lookupIconIdFromDirectoryEx buffer w h = 0 ∨
      env.createIconFromResourceEx buffer
        (env.lookupIconIdFromDirectoryEx buffer w h) buffer.length = none →
      (get_hicon_from_buffer env buffer w h).1 = none) ∧
    (get_hicon_from_buffer env buffer w h).2.count .lookup ≤ 1 ∧
    (get_hicon_from_buffer env buffer w h).2.count .create ≤ 1 := by
  by_cases h0 : env.lookupIconIdFromDirectoryEx buffer w h = 0
  · simp [get_hicon_from_buffer, h0]
  · cases hc : env.createIconFromResourceEx buffer
        (env.lookupIconIdFromDirectoryEx buffer w h) buffer.length <;>
      simp [get_hicon_from_buffer, h0, hc]

/-- Witness for C6 at the empty buffer in an environment whose lookup
finds no entry: the result is absent and each step ran at most once. -/
theorem get_hicon_absent_on_failure_witness :
    (get_hicon_from_buffer envIconFail [] 32 32).1 = none ∧
    (get_hicon_from_buffer envIconFail [] 32 32).2.count .lookup ≤ 1 ∧
    (get_hicon_from_buffer envIconFail [] 32 32).2.count .create ≤ 1 := by
  have h := get_hicon_absent_on_failure envIconFail [] 32 32
  exact ⟨h.1 (Or.inl rfl), h.2.1, h.2.2⟩

/-- C7: to_windows_cursor is a pure total function: every cursor shape
maps to a positive (hence non-null) stock-cursor identifier, and each
shape not named by an explicit match arm maps to IDC_ARROW. -/
theorem to_windows_cursor_total :
    (∀ c : CursorIcon, 0 < c.to_windows_cursor) ∧
    CursorIcon.ContextMenu.to_windows_cursor = IDC_ARROW ∧
    CursorIcon.Cell.to_windows_cursor = IDC_ARROW ∧
    CursorIcon.Alias.to_windows_cursor = IDC_ARROW ∧
    CursorIcon.Copy.to_windows_cursor = IDC_ARROW ∧
    CursorIcon.ZoomIn.to_windows_cursor = IDC_ARROW ∧
    CursorIcon.ZoomOut.to_windows_cursor = IDC_ARROW := by
  refine ⟨fun c => ?_, rfl, rfl, rfl, rfl, rfl, rfl⟩
  cases c <;> decide

/-- C10: whenever get_client_rect succeeds, its result is the native
client rectangle with all four edges offset by the screen translation
of the client origin, so its width and height equal those of the
untranslated native client rectangle. -/
theorem get_client_rect_preserves_size (env : ClientEnv) (hwnd : Nat) (r : RECT)
    (h : get_client_rect env hwnd = .ok r) :
    ∀ native pt,
      env.getClientRectNative hwnd = some native →
      env.clientToScreen hwnd = some pt →
      r.left = native.left + pt.x ∧ r.top = native.top + pt.y ∧
      r.right = native.right + pt.x ∧ r.bottom = native.bottom + pt.y ∧
      r.right - r.left = native.right - native.left ∧
      r.bottom - r.top = native.bottom - native.top := by
  intro native pt hn hp
  unfold get_client_rect at h
  rw [hp, hn] at h
  injection h with h
  subst h
  refine ⟨rfl, rfl, rfl, rfl, by ring, by ring⟩

/-- Witness for C10: with client origin translated to (10, 20) and a
640 by 480 native client rectangle, the translated rectangle keeps the
640 by 480 size. -/
theorem get_client_rect_preserves_size_witness :
    get_client_rect envClientOk 0 = .ok ⟨10, 20, 650, 500⟩ ∧
    (650 : Int) - 10 = 640 - 0 ∧ (500 : Int) - 20 = 480 - 0 := by
  have h := get_client_rect_preserves_size envClientOk 0 ⟨10, 20, 650, 500⟩ rfl
    ⟨0, 0, 640, 480⟩ ⟨10, 20⟩ rfl rfl
  exact ⟨rfl, h.2.2.2.2.1, h.2.2.2.2.2⟩

end Tao
